import Mathlib

/-!
Verification of the mailing-list pagination client (src/mailing_lists.go).

Shallow embedding: the network is an oracle mapping a URL to either a
decoded page response or an error string, and every operation additionally
records the list of URLs handed to the transport, so that statements of the
form "no fetch is performed" are expressible. Errors are modelled as opaque
strings; the Go nil error is `none`.
-/

namespace Mailgun

/-- The List structure of the source (named MailingList here because the
name List is taken by the core library): address, display name,
description, access level, creation timestamp and member count. -/
structure MailingList where
  Address : String
  Name : String
  Description : String
  AccessLevel : String
  CreatedAt : String
  MembersCount : Int
deriving Repr, DecidableEq

/-- Paging metadata decoded from a page response: four URL fields, each
either a fetch URL or empty. -/
structure Paging where
  First : String
  Next : String
  Previous : String
  Last : String
deriving Repr, DecidableEq

/-- listsResponse: the items of the current page plus its paging cursor,
exactly the JSON envelope shape of the source. -/
structure listsResponse where
  Lists : List MailingList
  Paging : Paging
deriving Repr, DecidableEq

/-- ListsOptions: an optional page-size limit. -/
structure ListsOptions where
  Limit : Int
deriving Repr, DecidableEq

/-- ListsIterator: embeds a listsResponse (the current page and cursor)
plus the sticky error field of the source. -/
structure ListsIterator where
  resp : listsResponse
  err : Option String
deriving Repr, DecidableEq

/-- The network oracle: what one authenticated GET of a given URL returns,
either a decoded listsResponse or an error. -/
abbrev Oracle := String → Except String listsResponse

/-- Modelled from the spec: getResponseFromJSON (the HTTP helper behind
ListsIterator.fetch is not part of the embedded source file). Per the spec
the fetch issues one GET on the given URL and either decodes the JSON
envelope into the target shape or returns an error describing the failure,
and it never partially mutates caller state on failure. The first component
is the returned error (nil on success); on success the embedded
listsResponse of the iterator is replaced wholesale by the decoded one.
Note the sticky err field is NOT touched here, matching the source where
fetch merely returns the error to its caller. -/
def ListsIterator.fetch (li : ListsIterator) (oracle : Oracle) (url : String) :
    Option String × ListsIterator :=
  match oracle url with
  | .ok resp => (none, { li with resp := resp })
  | .error e => (some e, li)

/-- Result of a boolean navigation operation: the returned Bool, the
iterator after the call, the value written into the caller-supplied items
slot (`none` when the slot is not written), and the URLs handed to the
transport during the call. -/
structure NavResult where
  ok : Bool
  it : ListsIterator
  out : Option (List MailingList)
  fetched : List String
deriving Repr, DecidableEq

/-- Result of GetNext or GetPrevious: the returned error, the iterator
after the call, and the URLs handed to the transport during the call. -/
structure GetResult where
  err : Option String
  it : ListsIterator
  fetched : List String
deriving Repr, DecidableEq

/-- Err returns the sticky error of the iterator, non nil when an error
occurred during iteration. -/
def ListsIterator.Err (li : ListsIterator) : Option String :=
  li.err

/-- GetPrevious: fetches the URL held in the Previous field of the cursor
and returns the fetch error directly; the sticky err field is not read and
not written. -/
def ListsIterator.GetPrevious (li : ListsIterator) (oracle : Oracle) : GetResult :=
  let r := li.fetch oracle li.resp.Paging.Previous
  ⟨r.1, r.2, [li.resp.Paging.Previous]⟩

/-- GetNext: fetches the URL held in the Next field of the cursor and
returns the fetch error directly; the sticky err field is not read and not
written. -/
def ListsIterator.GetNext (li : ListsIterator) (oracle : Oracle) : GetResult :=
  let r := li.fetch oracle li.resp.Paging.Next
  ⟨r.1, r.2, [li.resp.Paging.Next]⟩

/-- Next: short-circuits on a sticky error, otherwise fetches the Next URL,
stores the fetch error, returns false on error, writes the items slot, and
returns false exactly when the fetched page is empty. -/
def ListsIterator.Next (li : ListsIterator) (oracle : Oracle) : NavResult :=
  match li.err with
  | some _ => ⟨false, li, none, []⟩
  | none =>
    let r := li.fetch oracle li.resp.Paging.Next
    let li' : ListsIterator := { r.2 with err := r.1 }
    match r.1 with
    | some _ => ⟨false, li', none, [li.resp.Paging.Next]⟩
    | none =>
      if li'.resp.Lists.length = 0 then
        ⟨false, li', some li'.resp.Lists, [li.resp.Paging.Next]⟩
      else
        ⟨true, li', some li'.resp.Lists, [li.resp.Paging.Next]⟩

/-- First: short-circuits on a sticky error, otherwise fetches the First
URL, stores the fetch error, returns false on error, and otherwise writes
the items slot and returns true (also for an empty page). -/
def ListsIterator.First (li : ListsIterator) (oracle : Oracle) : NavResult :=
  match li.err with
  | some _ => ⟨false, li, none, []⟩
  | none =>
    let r := li.fetch oracle li.resp.Paging.First
    let li' : ListsIterator := { r.2 with err := r.1 }
    match r.1 with
    | some _ => ⟨false, li', none, [li.resp.Paging.First]⟩
    | none => ⟨true, li', some li'.resp.Lists, [li.resp.Paging.First]⟩

/-- Last: short-circuits on a sticky error, otherwise fetches the Last URL
(with no guard against an empty URL), stores the fetch error, returns false
on error, and otherwise writes the items slot and returns true. -/
def ListsIterator.Last (li : ListsIterator) (oracle : Oracle) : NavResult :=
  match li.err with
  | some _ => ⟨false, li, none, []⟩
  | none =>
    let r := li.fetch oracle li.resp.Paging.Last
    let li' : ListsIterator := { r.2 with err := r.1 }
    match r.1 with
    | some _ => ⟨false, li', none, [li.resp.Paging.Last]⟩
    | none => ⟨true, li', some li'.resp.Lists, [li.resp.Paging.Last]⟩

/-- Previous: short-circuits on a sticky error, returns false without
fetching when the Previous field of the cursor is empty, otherwise fetches
it, stores the fetch error, returns false on error, writes the items slot,
and returns false exactly when the fetched page is empty. -/
def ListsIterator.Previous (li : ListsIterator) (oracle : Oracle) : NavResult :=
  match li.err with
  | some _ => ⟨false, li, none, []⟩
  | none =>
    if li.resp.Paging.Previous = "" then ⟨false, li, none, []⟩
    else
      let r := li.fetch oracle li.resp.Paging.Previous
      let li' : ListsIterator := { r.2 with err := r.1 }
      match r.1 with
      | some _ => ⟨false, li', none, [li.resp.Paging.Previous]⟩
      | none =>
        if li'.resp.Lists.length = 0 then
          ⟨false, li', some li'.resp.Lists, [li.resp.Paging.Previous]⟩
        else
          ⟨true, li', some li'.resp.Lists, [li.resp.Paging.Previous]⟩

/-- The query parameters the constructor adds to the base request: a limit
parameter when options are present and the limit is nonzero, rendered with
strconv.Itoa (base ten, same as toString on Int). -/
def listParams (opts : Option ListsOptions) : List (String × String) :=
  match opts with
  | none => []
  | some o => if o.Limit ≠ 0 then [("limit", toString o.Limit)] else []

/-- Modelled from the spec: generateUrlWithParameters of the request helper
is not part of the embedded source file. Per the spec it is a URL builder
that appends query parameters to the base URL, used once at iterator
construction, and it can fail. Its outcome is supplied as a function from
the added parameter list to the pair of the produced URL string and an
optional error, as the Go helper returns both values. -/
abbrev UrlGen := List (String × String) → String × Option String

/-- ListMailingLists: mirrors MailgunImpl.ListMailingLists. It generates
the starting URL from the options, then returns an iterator whose First
and Next cursor fields are that URL, with empty Previous and Last, an
empty items page, and the URL generation error (possibly nil) as the
sticky error. The second component records the URLs handed to the
transport: construction never fetches. -/
def ListMailingLists (genUrl : UrlGen) (opts : Option ListsOptions) :
    ListsIterator × List String :=
  let r := genUrl (listParams opts)
  (⟨⟨[], ⟨r.1, r.1, "", ""⟩⟩, r.2⟩, [])

/-- The url-encoded payload built by MailgunImpl.CreateMailingList: one
addValue call per non-empty field among address, name, description and
access_level of the prototype, in that order. -/
def CreateMailingListPayload (prototype : MailingList) : List (String × String) :=
  let p : List (String × String) := []
  let p := if prototype.Address ≠ "" then p ++ [("address", prototype.Address)] else p
  let p := if prototype.Name ≠ "" then p ++ [("name", prototype.Name)] else p
  let p := if prototype.Description ≠ "" then p ++ [("description", prototype.Description)] else p
  if prototype.AccessLevel ≠ "" then p ++ [("access_level", prototype.AccessLevel)] else p

/-- The url-encoded payload built by MailgunImpl.UpdateMailingList: the
source duplicates the same four conditional addValue calls. -/
def UpdateMailingListPayload (prototype : MailingList) : List (String × String) :=
  let p : List (String × String) := []
  let p := if prototype.Address ≠ "" then p ++ [("address", prototype.Address)] else p
  let p := if prototype.Name ≠ "" then p ++ [("name", prototype.Name)] else p
  let p := if prototype.Description ≠ "" then p ++ [("description", prototype.Description)] else p
  if prototype.AccessLevel ≠ "" then p ++ [("access_level", prototype.AccessLevel)] else p

/-! Concrete fixtures used by counterexamples and witnesses. -/

/-- A concrete decoded page whose cursor differs from the starting URL. -/
def pagingA : Paging := ⟨"fa", "na", "pa", "la"⟩

/-- A concrete nonempty page response. -/
def respB : listsResponse :=
  ⟨[⟨"a@x", "A", "", "readonly", "", 0⟩], pagingA⟩

/-- A freshly constructed iterator with starting URL u0. -/
def freshIt : ListsIterator := ⟨⟨[], ⟨"u0", "u0", "", ""⟩⟩, none⟩

/-- An iterator in the failed state with sticky error boom. -/
def failedIt : ListsIterator := ⟨⟨[], ⟨"u0", "u0", "", ""⟩⟩, some "boom"⟩

/-- An oracle for which every fetch succeeds with respB. -/
def okOracle : Oracle := fun _ => .ok respB

/-- An oracle for which every fetch fails with error bang. -/
def errOracle : Oracle := fun _ => .error "bang"

/-- An oracle for which every fetch succeeds with an empty page. -/
def emptyOracle : Oracle := fun _ => .ok ⟨[], pagingA⟩

/-- An iterator whose cursor has a nonempty Previous field. -/
def prevIt : ListsIterator := ⟨⟨[], ⟨"u0", "u0", "p0", ""⟩⟩, none⟩

/-- A URL generator that fails, returning an empty URL and error urlerr. -/
def badGen : UrlGen := fun _ => ("", some "urlerr")

/-- A URL generator that always succeeds with URL u0. -/
def okGen : UrlGen := fun _ => ("u0", none)

/-- A concrete mailing-list prototype with empty Description. -/
def protoA : MailingList := ⟨"a@x", "A", "", "members", "2020", 3⟩

/-! Theorems settling the claims. -/

/-- C1 counterexample: the claim fails for GetNext. On the concrete failed
iterator failedIt (sticky error boom), GetNext does perform a fetch (the
transport receives the Next URL u0) and does not report a failure (it
returns a nil error), contradicting the claim that every navigation
operation of a failed iterator returns failure immediately without
performing a fetch. -/
theorem C1_counterexample :
    failedIt.err = some "boom" ∧
    (failedIt.GetNext okOracle).fetched = ["u0"] ∧
    (failedIt.GetNext okOracle).err = none ∧
    (failedIt.GetPrevious okOracle).fetched = [""] := by
  decide

/-- C1 amended: for every iterator whose sticky error is non-nil, the four
boolean navigation operations First, Next, Previous and Last return false
immediately, perform no fetch, and leave the iterator (page, cursor and
stored error) unchanged; GetNext and GetPrevious do not consult the sticky
error: they perform the fetch regardless, though they never modify the
stored error. -/
theorem C1_failed_state_short_circuits (oracle : Oracle) (li : ListsIterator)
    (e : String) (h : li.err = some e) :
    li.First oracle = ⟨false, li, none, []⟩ ∧
    li.Next oracle = ⟨false, li, none, []⟩ ∧
    li.Previous oracle = ⟨false, li, none, []⟩ ∧
    li.Last oracle = ⟨false, li, none, []⟩ ∧
    (li.GetNext oracle).fetched = [li.resp.Paging.Next] ∧
    (li.GetNext oracle).it.err = li.err ∧
    (li.GetPrevious oracle).fetched = [li.resp.Paging.Previous] ∧
    (li.GetPrevious oracle).it.err = li.err := by
  refine ⟨?_, ?_, ?_, ?_, ?_, ?_, ?_, ?_⟩ <;>
    simp [ListsIterator.First, ListsIterator.Next, ListsIterator.Previous,
      ListsIterator.Last, ListsIterator.GetNext, ListsIterator.GetPrevious,
      ListsIterator.fetch, h] <;>
    rcases h2 : oracle li.resp.Paging.Next <;>
    rcases h3 : oracle li.resp.Paging.Previous <;>
    simp [h2, h3, h]

/-- C1 witness: the amended theorem applied to the concrete failed
iterator failedIt and the oracle okOracle. -/
theorem C1_failed_state_short_circuits_witness :
    failedIt.err = some "boom" ∧
    (failedIt.First okOracle = ⟨false, failedIt, none, []⟩ ∧
     failedIt.Next okOracle = ⟨false, failedIt, none, []⟩ ∧
     failedIt.Previous okOracle = ⟨false, failedIt, none, []⟩ ∧
     failedIt.Last okOracle = ⟨false, failedIt, none, []⟩ ∧
     (failedIt.GetNext okOracle).fetched = [failedIt.resp.Paging.Next] ∧
     (failedIt.GetNext okOracle).it.err = failedIt.err ∧
     (failedIt.GetPrevious okOracle).fetched = [failedIt.resp.Paging.Previous] ∧
     (failedIt.GetPrevious okOracle).it.err = failedIt.err) :=
  ⟨by decide, C1_failed_state_short_circuits okOracle failedIt "boom" (by decide)⟩

/-- C2 counterexample: the claim fails for GetNext. On the concrete fresh
iterator freshIt with the always-failing oracle errOracle, GetNext reports
the fetch error bang, but the sticky error of the resulting iterator is
still nil: the error is not stored, so Err does not observe it. -/
theorem C2_counterexample :
    freshIt.err = none ∧
    (freshIt.GetNext errOracle).err = some "bang" ∧
    ((freshIt.GetNext errOracle).it.Err) = none := by
  decide

/-- C2 amended: for First, Next, Previous and Last, a fetch error is both
stored as the sticky error (observable via Err) and reported by the same
call returning false; GetNext and GetPrevious return the fetch error
directly but do not store it, leaving the sticky error unchanged. -/
theorem C2_fetch_error_sticky (oracle : Oracle) (li : ListsIterator)
    (e : String) (h : li.err = none) :
    (oracle li.resp.Paging.Next = .error e →
      (li.Next oracle).it.Err = some e ∧ (li.Next oracle).ok = false) ∧
    (oracle li.resp.Paging.First = .error e →
      (li.First oracle).it.Err = some e ∧ (li.First oracle).ok = false) ∧
    (oracle li.resp.Paging.Last = .error e →
      (li.Last oracle).it.Err = some e ∧ (li.Last oracle).ok = false) ∧
    (li.resp.Paging.Previous ≠ "" → oracle li.resp.Paging.Previous = .error e →
      (li.Previous oracle).it.Err = some e ∧ (li.Previous oracle).ok = false) ∧
    (oracle li.resp.Paging.Next = .error e →
      (li.GetNext oracle).err = some e ∧ (li.GetNext oracle).it.Err = none) ∧
    (oracle li.resp.Paging.Previous = .error e →
      (li.GetPrevious oracle).err = some e ∧ (li.GetPrevious oracle).it.Err = none) := by
  refine ⟨fun h2 => ?_, fun h2 => ?_, fun h2 => ?_, fun hp h2 => ?_,
    fun h2 => ?_, fun h2 => ?_⟩
  · simp [ListsIterator.Next, ListsIterator.fetch, ListsIterator.Err, h, h2]
  · simp [ListsIterator.First, ListsIterator.fetch, ListsIterator.Err, h, h2]
  · simp [ListsIterator.Last, ListsIterator.fetch, ListsIterator.Err, h, h2]
  · simp [ListsIterator.Previous, ListsIterator.fetch, ListsIterator.Err, h, hp, h2]
  · simp [ListsIterator.GetNext, ListsIterator.fetch, ListsIterator.Err, h, h2]
  · simp [ListsIterator.GetPrevious, ListsIterator.fetch, ListsIterator.Err, h, h2]

/-- C2 witness: the amended theorem applied to the fresh iterator freshIt
and the always-failing oracle errOracle; the Next conjunct is evaluated. -/
theorem C2_fetch_error_sticky_witness :
    freshIt.err = none ∧
    ((freshIt.Next errOracle).it.Err = some "bang" ∧
     (freshIt.Next errOracle).ok = false) :=
  ⟨by decide,
   (C2_fetch_error_sticky errOracle freshIt "bang" (by decide)).1 rfl⟩

/-- C3 counterexample: on the concrete fresh iterator freshIt (whose first
cursor field is the starting URL u0), a successful Next fetch through
okOracle decodes paging metadata whose first field is fa, and the cursor
first field of the iterator after the call is fa, not u0: a navigation
operation did change the first field. -/
theorem C3_counterexample :
    freshIt.resp.Paging.First = "u0" ∧
    (freshIt.Next okOracle).ok = true ∧
    (freshIt.Next okOracle).it.resp.Paging.First = "fa" := by
  decide

/-- C3 amended: the first cursor field equals the starting URL at
construction, but every successful fetch, whichever of the six navigation
operations performs it, replaces the whole cursor, including first, with
the paging metadata the fetch decoded; first is therefore only as constant
as the metadata the server returns. -/
theorem C3_first_replaced_by_fetch (genUrl : UrlGen) (opts : Option ListsOptions)
    (oracle : Oracle) (li : ListsIterator) (resp : listsResponse)
    (h : li.err = none) :
    (ListMailingLists genUrl opts).1.resp.Paging.First = (genUrl (listParams opts)).1 ∧
    (oracle li.resp.Paging.Next = .ok resp →
      (li.Next oracle).it.resp.Paging = resp.Paging) ∧
    (oracle li.resp.Paging.First = .ok resp →
      (li.First oracle).it.resp.Paging = resp.Paging) ∧
    (oracle li.resp.Paging.Last = .ok resp →
      (li.Last oracle).it.resp.Paging = resp.Paging) ∧
    (li.resp.Paging.Previous ≠ "" → oracle li.resp.Paging.Previous = .ok resp →
      (li.Previous oracle).it.resp.Paging = resp.Paging) ∧
    (oracle li.resp.Paging.Next = .ok resp →
      (li.GetNext oracle).it.resp.Paging = resp.Paging) ∧
    (oracle li.resp.Paging.Previous = .ok resp →
      (li.GetPrevious oracle).it.resp.Paging = resp.Paging) := by
  refine ⟨rfl, fun h2 => ?_, fun h2 => ?_, fun h2 => ?_, fun hp h2 => ?_,
    fun h2 => ?_, fun h2 => ?_⟩
  · simp only [ListsIterator.Next, ListsIterator.fetch, h, h2]
    split <;> rfl
  · simp [ListsIterator.First, ListsIterator.fetch, h, h2]
  · simp [ListsIterator.Last, ListsIterator.fetch, h, h2]
  · simp only [ListsIterator.Previous, ListsIterator.fetch, h, h2, if_neg hp]
    split <;> rfl
  · simp [ListsIterator.GetNext, ListsIterator.fetch, h2]
  · simp [ListsIterator.GetPrevious, ListsIterator.fetch, h2]

/-- C3 witness: the amended theorem applied to the constant URL generator
okGen, no options, the iterator prevIt (nonempty Previous field, so every
conjunct is exercisable) and the oracle okOracle. -/
theorem C3_first_replaced_by_fetch_witness :
    prevIt.err = none ∧
    ((ListMailingLists okGen none).1.resp.Paging.First = (okGen (listParams none)).1 ∧
     (okOracle prevIt.resp.Paging.Next = .ok respB →
       (prevIt.Next okOracle).it.resp.Paging = respB.Paging) ∧
     (okOracle prevIt.resp.Paging.First = .ok respB →
       (prevIt.First okOracle).it.resp.Paging = respB.Paging) ∧
     (okOracle prevIt.resp.Paging.Last = .ok respB →
       (prevIt.Last okOracle).it.resp.Paging = respB.Paging) ∧
     (prevIt.resp.Paging.Previous ≠ "" →
       okOracle prevIt.resp.Paging.Previous = .ok respB →
       (prevIt.Previous okOracle).it.resp.Paging = respB.Paging) ∧
     (okOracle prevIt.resp.Paging.Next = .ok respB →
       (prevIt.GetNext okOracle).it.resp.Paging = respB.Paging) ∧
     (okOracle prevIt.resp.Paging.Previous = .ok respB →
       (prevIt.GetPrevious okOracle).it.resp.Paging = respB.Paging)) :=
  ⟨by decide, C3_first_replaced_by_fetch okGen none okOracle prevIt respB (by decide)⟩

/-- C4: for every URL generator outcome and every options value,
construction performs no fetch, and the constructed iterator carries an
empty items page and a cursor whose First and Next fields are the starting
URL produced by the generator, with Previous and Last empty. -/
theorem C4_construction_pure (genUrl : UrlGen) (opts : Option ListsOptions) :
    (ListMailingLists genUrl opts).2 = [] ∧
    (ListMailingLists genUrl opts).1.resp.Lists = [] ∧
    (ListMailingLists genUrl opts).1.resp.Paging =
      ⟨(genUrl (listParams opts)).1, (genUrl (listParams opts)).1, "", ""⟩ :=
  ⟨rfl, rfl, rfl⟩

/-- C5: for a successful fetch that decodes an empty items page, Next and
Previous return false, while First returns true and writes zero items into
the caller slot. -/
theorem C5_empty_page (oracle : Oracle) (li : ListsIterator) (h : li.err = none) :
    (∀ pg, oracle li.resp.Paging.Next = .ok ⟨[], pg⟩ →
      (li.Next oracle).ok = false) ∧
    (∀ pg, li.resp.Paging.Previous ≠ "" →
      oracle li.resp.Paging.Previous = .ok ⟨[], pg⟩ →
      (li.Previous oracle).ok = false) ∧
    (∀ pg, oracle li.resp.Paging.First = .ok ⟨[], pg⟩ →
      (li.First oracle).ok = true ∧ (li.First oracle).out = some []) := by
  refine ⟨fun pg h2 => ?_, fun pg hp h2 => ?_, fun pg h2 => ?_⟩
  · simp [ListsIterator.Next, ListsIterator.fetch, h, h2]
  · simp [ListsIterator.Previous, ListsIterator.fetch, h, hp, h2]
  · simp [ListsIterator.First, ListsIterator.fetch, h, h2]

/-- C5 witness: the theorem applied to the fresh iterator with a nonempty
Previous cursor field and the oracle emptyOracle that always returns an
empty page. -/
theorem C5_empty_page_witness :
    ((⟨⟨[], ⟨"u0", "u0", "p0", ""⟩⟩, none⟩ : ListsIterator).err = none) ∧
    (((⟨⟨[], ⟨"u0", "u0", "p0", ""⟩⟩, none⟩ : ListsIterator).Next emptyOracle).ok = false ∧
     ((⟨⟨[], ⟨"u0", "u0", "p0", ""⟩⟩, none⟩ : ListsIterator).Previous emptyOracle).ok = false ∧
     ((⟨⟨[], ⟨"u0", "u0", "p0", ""⟩⟩, none⟩ : ListsIterator).First emptyOracle).ok = true ∧
     ((⟨⟨[], ⟨"u0", "u0", "p0", ""⟩⟩, none⟩ : ListsIterator).First emptyOracle).out = some []) := by
  have h := C5_empty_page emptyOracle ⟨⟨[], ⟨"u0", "u0", "p0", ""⟩⟩, none⟩ (by decide)
  exact ⟨by decide, h.1 pagingA rfl, h.2.1 pagingA (by decide) rfl,
    (h.2.2 pagingA rfl).1, (h.2.2 pagingA rfl).2⟩

/-- C6: when the Previous cursor field is empty and the sticky error is
nil, Previous returns false, performs no fetch, writes nothing into the
caller slot, and leaves the whole iterator (page, cursor and error)
unchanged. -/
theorem C6_previous_empty_guard (oracle : Oracle) (li : ListsIterator)
    (h : li.err = none) (h2 : li.resp.Paging.Previous = "") :
    li.Previous oracle = ⟨false, li, none, []⟩ := by
  simp [ListsIterator.Previous, h, h2]

/-- C6 witness: the theorem applied to the fresh iterator freshIt, whose
Previous field is empty, with the oracle okOracle. -/
theorem C6_previous_empty_guard_witness :
    freshIt.err = none ∧ freshIt.resp.Paging.Previous = "" ∧
    freshIt.Previous okOracle = ⟨false, freshIt, none, []⟩ :=
  ⟨by decide, by decide,
   C6_previous_empty_guard okOracle freshIt (by decide) (by decide)⟩

/-- C7 counterexample: on the concrete fresh iterator freshIt, whose
cursor Last field is empty (no fetch has happened yet) and whose sticky
error is nil, Last does attempt a fetch and hands the empty URL to the
transport, contradicting the claim that no navigation operation ever
attempts a fetch with an empty URL. -/
theorem C7_counterexample :
    freshIt.resp.Paging.Last = "" ∧ freshIt.err = none ∧
    (freshIt.Last okOracle).fetched = [""] := by
  decide

/-- C7 amended: only Previous guards against an empty target URL; First,
Next, Last, GetNext and GetPrevious always hand the corresponding cursor
field to the transport, even when that field is the empty string — in
particular Last called before any fetch invokes the transport with an
empty URL. -/
theorem C7_empty_url_not_guarded (oracle : Oracle) (li : ListsIterator)
    (h : li.err = none) :
    (li.resp.Paging.Previous = "" → (li.Previous oracle).fetched = []) ∧
    (li.First oracle).fetched = [li.resp.Paging.First] ∧
    (li.Next oracle).fetched = [li.resp.Paging.Next] ∧
    (li.Last oracle).fetched = [li.resp.Paging.Last] ∧
    (li.GetNext oracle).fetched = [li.resp.Paging.Next] ∧
    (li.GetPrevious oracle).fetched = [li.resp.Paging.Previous] := by
  refine ⟨fun hp => ?_, ?_, ?_, ?_, ?_, ?_⟩
  · simp [ListsIterator.Previous, h, hp]
  · rcases h2 : oracle li.resp.Paging.First <;>
      simp [ListsIterator.First, ListsIterator.fetch, h, h2]
  · rcases h2 : oracle li.resp.Paging.Next <;>
      simp [ListsIterator.Next, ListsIterator.fetch, h, h2,
        apply_ite NavResult.fetched]
  · rcases h2 : oracle li.resp.Paging.Last <;>
      simp [ListsIterator.Last, ListsIterator.fetch, h, h2]
  · simp [ListsIterator.GetNext, ListsIterator.fetch, h]
  · simp [ListsIterator.GetPrevious, ListsIterator.fetch, h]

/-- C7 witness: the amended theorem applied to the fresh iterator freshIt
(empty Previous and Last fields) with the oracle okOracle. -/
theorem C7_empty_url_not_guarded_witness :
    freshIt.err = none ∧
    ((freshIt.resp.Paging.Previous = "" → (freshIt.Previous okOracle).fetched = []) ∧
     (freshIt.First okOracle).fetched = [freshIt.resp.Paging.First] ∧
     (freshIt.Next okOracle).fetched = [freshIt.resp.Paging.Next] ∧
     (freshIt.Last okOracle).fetched = [freshIt.resp.Paging.Last] ∧
     (freshIt.GetNext okOracle).fetched = [freshIt.resp.Paging.Next] ∧
     (freshIt.GetPrevious okOracle).fetched = [freshIt.resp.Paging.Previous]) :=
  ⟨by decide, C7_empty_url_not_guarded okOracle freshIt (by decide)⟩

/-- C8: for every prototype, Create and Update build the same payload, and
each of the address, name, description and access_level pairs is in the
payload exactly when the corresponding prototype field is nonempty, while
every payload entry is one of those four pairs (so CreatedAt and
MembersCount are never transmitted). -/
theorem C8_payload_exact_fields (prototype : MailingList) :
    UpdateMailingListPayload prototype = CreateMailingListPayload prototype ∧
    ((("address", prototype.Address) ∈ CreateMailingListPayload prototype) ↔
      prototype.Address ≠ "") ∧
    ((("name", prototype.Name) ∈ CreateMailingListPayload prototype) ↔
      prototype.Name ≠ "") ∧
    ((("description", prototype.Description) ∈ CreateMailingListPayload prototype) ↔
      prototype.Description ≠ "") ∧
    ((("access_level", prototype.AccessLevel) ∈ CreateMailingListPayload prototype) ↔
      prototype.AccessLevel ≠ "") ∧
    (∀ k v, (k, v) ∈ CreateMailingListPayload prototype →
      (k = "address" ∧ v = prototype.Address) ∨
      (k = "name" ∧ v = prototype.Name) ∨
      (k = "description" ∧ v = prototype.Description) ∨
      (k = "access_level" ∧ v = prototype.AccessLevel)) := by
  simp only [CreateMailingListPayload, UpdateMailingListPayload]
  split_ifs <;> simp_all <;> tauto

/-- C8 witness: the theorem applied to the concrete prototype protoA,
whose Description field is empty and other fields nonempty. -/
theorem C8_payload_exact_fields_witness :
    UpdateMailingListPayload protoA = CreateMailingListPayload protoA ∧
    ((("address", protoA.Address) ∈ CreateMailingListPayload protoA) ↔
      protoA.Address ≠ "") ∧
    ((("name", protoA.Name) ∈ CreateMailingListPayload protoA) ↔
      protoA.Name ≠ "") ∧
    ((("description", protoA.Description) ∈ CreateMailingListPayload protoA) ↔
      protoA.Description ≠ "") ∧
    ((("access_level", protoA.AccessLevel) ∈ CreateMailingListPayload protoA) ↔
      protoA.AccessLevel ≠ "") ∧
    (∀ k v, (k, v) ∈ CreateMailingListPayload protoA →
      (k = "address" ∧ v = protoA.Address) ∨
      (k = "name" ∧ v = protoA.Name) ∨
      (k = "description" ∧ v = protoA.Description) ∨
      (k = "access_level" ∧ v = protoA.AccessLevel)) :=
  C8_payload_exact_fields protoA

/-- C9: on a failed fetch, the page and cursor of the iterator are exactly
what they were before the call, the caller items slot is not written, and
the boolean operations return false; GetNext and GetPrevious likewise
leave the page and cursor untouched on failure. -/
theorem C9_failure_preserves_state (oracle : Oracle) (li : ListsIterator)
    (e : String) (h : li.err = none) :
    (oracle li.resp.Paging.Next = .error e →
      (li.Next oracle).it.resp = li.resp ∧ (li.Next oracle).out = none ∧
      (li.Next oracle).ok = false) ∧
    (oracle li.resp.Paging.First = .error e →
      (li.First oracle).it.resp = li.resp ∧ (li.First oracle).out = none ∧
      (li.First oracle).ok = false) ∧
    (oracle li.resp.Paging.Last = .error e →
      (li.Last oracle).it.resp = li.resp ∧ (li.Last oracle).out = none ∧
      (li.Last oracle).ok = false) ∧
    (li.resp.Paging.Previous ≠ "" → oracle li.resp.Paging.Previous = .error e →
      (li.Previous oracle).it.resp = li.resp ∧ (li.Previous oracle).out = none ∧
      (li.Previous oracle).ok = false) ∧
    (oracle li.resp.Paging.Next = .error e →
      (li.GetNext oracle).it.resp = li.resp) ∧
    (oracle li.resp.Paging.Previous = .error e →
      (li.GetPrevious oracle).it.resp = li.resp) := by
  refine ⟨fun h2 => ?_, fun h2 => ?_, fun h2 => ?_, fun hp h2 => ?_,
    fun h2 => ?_, fun h2 => ?_⟩
  · simp [ListsIterator.Next, ListsIterator.fetch, h, h2]
  · simp [ListsIterator.First, ListsIterator.fetch, h, h2]
  · simp [ListsIterator.Last, ListsIterator.fetch, h, h2]
  · simp [ListsIterator.Previous, ListsIterator.fetch, h, hp, h2]
  · simp [ListsIterator.GetNext, ListsIterator.fetch, h2]
  · simp [ListsIterator.GetPrevious, ListsIterator.fetch, h2]

/-- C9 witness: the theorem applied to the iterator prevIt (nonempty
Previous field) with the always-failing oracle errOracle; the Next and
Previous conjuncts are evaluated. -/
theorem C9_failure_preserves_state_witness :
    prevIt.err = none ∧
    ((prevIt.Next errOracle).it.resp = prevIt.resp ∧
     (prevIt.Next errOracle).out = none ∧
     (prevIt.Next errOracle).ok = false) ∧
    ((prevIt.Previous errOracle).it.resp = prevIt.resp ∧
     (prevIt.Previous errOracle).out = none ∧
     (prevIt.Previous errOracle).ok = false) :=
  ⟨by decide,
   (C9_failure_preserves_state errOracle prevIt "bang" (by decide)).1 rfl,
   (C9_failure_preserves_state errOracle prevIt "bang" (by decide)).2.2.2.1
     (by decide) rfl⟩

/-- C10: when URL generation at construction fails, the returned iterator
is already in the failed state: Err observes the generation error, and
each of First, Next, Previous and Last returns false without fetching and
leaves the iterator unchanged. -/
theorem C10_construction_error_failed (genUrl : UrlGen) (opts : Option ListsOptions)
    (oracle : Oracle) (e u : String)
    (h : genUrl (listParams opts) = (u, some e)) :
    (ListMailingLists genUrl opts).1.Err = some e ∧
    (ListMailingLists genUrl opts).1.First oracle =
      ⟨false, (ListMailingLists genUrl opts).1, none, []⟩ ∧
    (ListMailingLists genUrl opts).1.Next oracle =
      ⟨false, (ListMailingLists genUrl opts).1, none, []⟩ ∧
    (ListMailingLists genUrl opts).1.Previous oracle =
      ⟨false, (ListMailingLists genUrl opts).1, none, []⟩ ∧
    (ListMailingLists genUrl opts).1.Last oracle =
      ⟨false, (ListMailingLists genUrl opts).1, none, []⟩ := by
  have he : (ListMailingLists genUrl opts).1.err = some e := by
    simp [ListMailingLists, h]
  refine ⟨?_, ?_, ?_, ?_, ?_⟩ <;>
    simp [ListsIterator.Err, ListsIterator.First, ListsIterator.Next,
      ListsIterator.Previous, ListsIterator.Last, he]

/-- C10 witness: the theorem applied to the failing URL generator badGen,
no options, and the oracle okOracle. -/
theorem C10_construction_error_failed_witness :
    badGen (listParams none) = ("", some "urlerr") ∧
    ((ListMailingLists badGen none).1.Err = some "urlerr" ∧
     (ListMailingLists badGen none).1.First okOracle =
       ⟨false, (ListMailingLists badGen none).1, none, []⟩ ∧
     (ListMailingLists badGen none).1.Next okOracle =
       ⟨false, (ListMailingLists badGen none).1, none, []⟩ ∧
     (ListMailingLists badGen none).1.Previous okOracle =
       ⟨false, (ListMailingLists badGen none).1, none, []⟩ ∧
     (ListMailingLists badGen none).1.Last okOracle =
       ⟨false, (ListMailingLists badGen none).1, none, []⟩) :=
  ⟨rfl, C10_construction_error_failed badGen none okOracle "urlerr" "" rfl⟩

end Mailgun
